import Mathlib

/-!
Verification of the `registro` resource-identifier (RID) library.

This file shallowly embeds the parts of the Python source needed to settle
the frozen claims: the pattern registry (`src/registro/config/settings.py`),
the component validators and the composite `RID` type
(`src/registro/models/rid.py`), the ULID locator generator, the global type
registry (`src/registro/core/global_registry.py`), and the field-level
immutability guard of `Resource.__setattr__`
(`src/registro/core/resource.py`).

Python dictionaries are embedded as insertion-ordered association lists,
Python `str.split('.')` as `pySplitDot`, and the finitely many regular
expressions occurring in the source as explicit decidable matchers
(`reMatch`).  Exceptions become `Except` results; methods that mutate
state return the new state alongside the result.
-/

set_option autoImplicit false

namespace Registro

universe u

variable {α : Type u}

/-- Lookup in an association list keyed by strings; embeds Python `dict`
lookup (`d.get(k)` / `k in d`). -/
def alistLookup (k : String) : List (String × α) → Option α
  | [] => none
  | (k2, v) :: rest => if k2 = k then some v else alistLookup k rest

/-- Update (or append) a binding; embeds Python `d[k] = v`, which keeps the
insertion position of an existing key. -/
def alistUpdate (k : String) (v : α) : List (String × α) → List (String × α)
  | [] => [(k, v)]
  | (k2, v2) :: rest =>
    if k2 = k then (k2, v) :: rest else (k2, v2) :: alistUpdate k v rest

/-- Remove every binding of a key; embeds Python `d.pop(k, None)` on a dict
whose keys are unique. -/
def alistEraseKey (k : String) : List (String × α) → List (String × α)
  | [] => []
  | (k2, v2) :: rest =>
    if k2 = k then alistEraseKey k rest else (k2, v2) :: alistEraseKey k rest

theorem alistLookup_update_self (k : String) (v : α) :
    ∀ l : List (String × α), alistLookup k (alistUpdate k v l) = some v := by
  intro l
  induction l with
  | nil => simp [alistUpdate, alistLookup]
  | cons hd tl ih =>
    obtain ⟨k2, v2⟩ := hd
    by_cases h : k2 = k
    · simp [alistUpdate, alistLookup, h]
    · simp [alistUpdate, alistLookup, h, ih]

theorem alistLookup_erase_self (k : String) :
    ∀ l : List (String × α), alistLookup k (alistEraseKey k l) = none := by
  intro l
  induction l with
  | nil => rfl
  | cons hd tl ih =>
    obtain ⟨k2, v2⟩ := hd
    by_cases h : k2 = k
    · simpa [alistEraseKey, h] using ih
    · simp [alistEraseKey, alistLookup, h, ih]

/-- Split a character list at every occurrence of `sep`; the character-level
semantics of Python `str.split(sep)` for a one-character separator
(`"".split('.') == [""]`, empty segments are kept). -/
def splitCh (sep : Char) : List Char → List (List Char)
  | [] => [[]]
  | c :: cs =>
    match splitCh sep cs with
    | [] => [[]]
    | p :: ps => if c = sep then [] :: p :: ps else (c :: p) :: ps

/-- Embeds Python `s.split('.')`. -/
def pySplitDot (s : String) : List String :=
  (splitCh '.' s.data).map String.mk

theorem splitCh_ne_nil (sep : Char) : ∀ cs : List Char, splitCh sep cs ≠ [] := by
  intro cs
  cases cs with
  | nil => simp [splitCh]
  | cons c cs =>
    simp only [splitCh]
    match splitCh sep cs with
    | [] => simp
    | p :: ps =>
      by_cases h : c = sep <;> simp [h]

theorem splitCh_no_sep (sep : Char) :
    ∀ xs : List Char, (∀ c ∈ xs, c ≠ sep) → splitCh sep xs = [xs] := by
  intro xs
  induction xs with
  | nil => intro _; rfl
  | cons c cs ih =>
    intro h
    have hc : c ≠ sep := h c (List.mem_cons_self c cs)
    have hcs := ih (fun d hd => h d (List.mem_cons_of_mem c hd))
    simp only [splitCh, hcs]
    simp [hc]

theorem splitCh_append_sep (sep : Char) :
    ∀ (xs rest : List Char), (∀ c ∈ xs, c ≠ sep) →
      splitCh sep (xs ++ sep :: rest) = xs :: splitCh sep rest := by
  intro xs
  induction xs with
  | nil =>
    intro rest _
    simp only [List.nil_append, splitCh]
    have h := splitCh_ne_nil sep rest
    match hs : splitCh sep rest with
    | [] => exact absurd hs h
    | p :: ps => simp
  | cons c cs ih =>
    intro rest h
    have hc : c ≠ sep := h c (List.mem_cons_self c cs)
    have hcs := ih rest (fun d hd => h d (List.mem_cons_of_mem c hd))
    rw [List.cons_append]
    simp only [splitCh]
    rw [hcs]
    simp [hc]

/-- Embeds Python `str.lower()` (characterwise; the names fed to it are
ASCII). -/
def pyLower (s : String) : String := String.mk (s.data.map Char.toLower)

/-- Embeds Python `str.upper()` (characterwise; the names fed to it are
ASCII). -/
def pyUpper (s : String) : String := String.mk (s.data.map Char.toUpper)

/-- Character class `[a-z]`. -/
def isLowerAlpha (c : Char) : Bool := 'a' ≤ c && c ≤ 'z'

/-- Character class `[a-z-]` (lowercase letter or hyphen). -/
def isLowerHyphen (c : Char) : Bool := isLowerAlpha c || c = '-'

/-- Character class `[a-z0-9]`. -/
def isLowerDigit (c : Char) : Bool := isLowerAlpha c || ('0' ≤ c && c ≤ '9')

/-- Character class `[a-z0-9-]`. -/
def isLowerDigitHyphen (c : Char) : Bool := isLowerDigit c || c = '-'

/-- Character class `[0-9A-HJ-KM-NPQRSTVWXYZ]`: Crockford base32, i.e.
digits and uppercase letters excluding `I`, `L`, `O`, `U`. -/
def isCrockford (c : Char) : Bool :=
  ('0' ≤ c && c ≤ '9') || ('A' ≤ c && c ≤ 'H') || ('J' ≤ c && c ≤ 'K') ||
  ('M' ≤ c && c ≤ 'N') || ('P' ≤ c && c ≤ 'T') || ('V' ≤ c && c ≤ 'Z')

/-- Denotation of `^[a-z][a-z-]{0,n}$` (service/type shape): a first
lowercase letter followed by at most `n` lowercase letters or hyphens. -/
def matchLowerHyphen (n : Nat) (s : String) : Bool :=
  match s.data with
  | [] => false
  | c :: rest => isLowerAlpha c && rest.length ≤ n && rest.all isLowerHyphen

/-- Denotation of `^[a-z0-9][a-z0-9-]{0,n}$` (instance shape). -/
def matchLowerDigitHyphen (n : Nat) (s : String) : Bool :=
  match s.data with
  | [] => false
  | c :: rest => isLowerDigit c && rest.length ≤ n && rest.all isLowerDigitHyphen

/-- Denotation of `^[a-z][a-z0-9-]{0,n}$` (rid-prefix shape). -/
def matchPrefixShape (n : Nat) (s : String) : Bool :=
  match s.data with
  | [] => false
  | c :: rest => isLowerAlpha c && rest.length ≤ n && rest.all isLowerDigitHyphen

/-- Denotation of `^[0-9A-HJ-KM-NPQRSTVWXYZ]{26}$` (locator shape). -/
def matchLocatorShape (s : String) : Bool :=
  s.data.length = 26 && s.data.all isCrockford

/-- Partial denotation of the Python `re` engine ( `compiled.match(value)`
with the source's fully anchored patterns): maps each regular-expression
literal that occurs in `src/registro/config/settings.py` to its matcher.
Patterns outside this finite set never reach a match call in the verified
claims. -/
def reMatch (p : String) (s : String) : Bool :=
  if p = "^[a-z][a-z-]\x7b0,49\x7d$" then matchLowerHyphen 49 s
  else if p = "^[a-z0-9][a-z0-9-]\x7b0,49\x7d$" then matchLowerDigitHyphen 49 s
  else if p = "^[0-9A-HJ-KM-NPQRSTVWXYZ]\x7b26\x7d$" then matchLocatorShape s
  else if p = "^[a-z][a-z0-9-]\x7b0,9\x7d$" then matchPrefixShape 9 s
  else false

/-- Embeds `Settings` (src/registro/config/settings.py).  `patterns` holds
the `_pattern_<name>` attributes keyed by `<name>`; `cache` is
`_compiled_patterns_cache`, a compiled pattern being represented by its
source string; `reservedWords` is `_reserved_words`.  The `ridPrefixVal`,
`defaultService` and `defaultInstance` fields are `RID_PREFIX`,
`DEFAULT_SERVICE` and `DEFAULT_INSTANCE`. -/
structure Settings where
  ridPrefixVal : String
  defaultService : String
  defaultInstance : String
  patterns : List (String × String)
  cache : List (String × String)
  reservedWords : List String
deriving DecidableEq

/-- The `_pattern_*` attributes installed by `Settings.__init__`, keyed by
the attribute name minus the `_pattern_` prefix. -/
def defaultPatterns : List (String × String) :=
  [ ("rid_prefix", "^[a-z][a-z0-9-]\x7b0,9\x7d$"),
    ("service", "^[a-z][a-z-]\x7b0,49\x7d$"),
    ("instance", "^[a-z0-9][a-z0-9-]\x7b0,49\x7d$"),
    ("type", "^[a-z][a-z-]\x7b0,49\x7d$"),
    ("locator", "^[0-9A-HJ-KM-NPQRSTVWXYZ]\x7b26\x7d$"),
    ("api_name_object_type", "^(?=.\x7b1,100\x7d$)[A-Z][A-Za-z0-9]*$"),
    ("api_name_link_type", "^(?=.\x7b1,100\x7d$)[a-z][A-Za-z0-9]*$"),
    ("api_name_action_type", "^(?=.\x7b1,100\x7d$)[A-Za-z][A-Za-z0-9_-]*$"),
    ("api_name_query_type", "^(?=.\x7b1,100\x7d$)[a-z][A-Za-z0-9]*$") ]

/-- The `_reserved_words` set installed by `Settings.__init__`. -/
def defaultReservedWords : List String :=
  [ "new", "edit", "delete", "list", "search", "create",
    "update", "remove", "get", "set", "add", "clear", "null" ]

/-- The `Settings()` singleton under the default configuration: no
`REGISTRO_*` environment variable is set, so `_initialize` keeps every
default installed by `__init__`. -/
def defaultSettings : Settings :=
  { ridPrefixVal := "ri"
    defaultService := "default"
    defaultInstance := "prod"
    patterns := defaultPatterns
    cache := []
    reservedWords := defaultReservedWords }

/-- The `pattern_mapping` dict of `Settings.get_pattern_string`. -/
def patternMapping : List (String × String) :=
  [ ("RID_PREFIX", "rid_prefix"),
    ("SERVICE", "service"),
    ("INSTANCE", "instance"),
    ("TYPE", "type"),
    ("LOCATOR", "locator"),
    ("API_NAME_OBJECT_TYPE", "api_name_object_type"),
    ("API_NAME_LINK_TYPE", "api_name_link_type"),
    ("API_NAME_ACTION_TYPE", "api_name_action_type"),
    ("API_NAME_QUERY_TYPE", "api_name_query_type") ]

/-- Embeds `Settings.get_pattern_string`: map the name through
`pattern_mapping` (falling back to `name.lower()`) and read the
`_pattern_<mapped>` attribute, `None` when absent. -/
def get_pattern_string (st : Settings) (name : String) : Option String :=
  let mapped := (alistLookup name patternMapping).getD (pyLower name)
  alistLookup mapped st.patterns

/-- Embeds `Settings.get_compiled_pattern`, parameterised by the oracle
`compiles` deciding Python `re.compile` success: consult the cache, else
fetch the pattern string (a missing or empty string is falsy and yields
`None`), compile and cache it, returning `None` on a compile error. -/
def get_compiled_pattern (compiles : String → Bool) (st : Settings)
    (name : String) : Option String × Settings :=
  match alistLookup name st.cache with
  | some p => (some p, st)
  | none =>
    match get_pattern_string st name with
    | some ps =>
      if ps = "" then (none, st)
      else if compiles ps then
        (some ps, { st with cache := alistUpdate name ps st.cache })
      else (none, st)
    | none => (none, st)

/-- Error kinds raised by the settings layer. -/
inductive SErr where
  /-- `ValueError: Invalid regex pattern for <name>` from `_validate_pattern`. -/
  | invalidPattern (name : String)
  /-- `ValueError: Unknown pattern name: <name>` from `set_pattern`. -/
  | unknownPattern (name : String)
deriving DecidableEq

/-- Embeds `Settings.set_pattern`: requires the `_pattern_<name.lower()>`
attribute to exist, validates the new string with `re.compile` (raising
and leaving state untouched on failure), stores it, and pops the cache
entry under `name.upper()`. -/
def set_pattern (compiles : String → Bool) (st : Settings)
    (name ps : String) : Except SErr Unit × Settings :=
  let attr := pyLower name
  if (alistLookup attr st.patterns).isSome then
    if compiles ps then
      (Except.ok (),
        { st with patterns := alistUpdate attr ps st.patterns
                  cache := alistEraseKey (pyUpper name) st.cache })
    else (Except.error (SErr.invalidPattern name), st)
  else (Except.error (SErr.unknownPattern name), st)

/-- Oracle for Python `re.compile` success on the strings this development
feeds to it: every pattern string of the default settings compiles, and the
unbalanced pattern `"("` is the stock example of a compile failure. -/
def reOracle : String → Bool := fun p => p ≠ "("

/-- Validation error kinds raised by the component validators and by
`RID.validate` (Python `ValueError` messages, by kind). -/
inductive VErr where
  /-- `<field> '<value>' does not match pattern <pattern>`. -/
  | patternMismatch (field val : String)
  /-- `<field> '<value>' is a reserved word and cannot be used`. -/
  | reservedWord (field val : String)
  /-- `Configuration error: Pattern ... not found or invalid in settings`. -/
  | configMissing (cls : String)
  /-- `Invalid ULID '<value>'` from `LocatorStr.validate`. -/
  | invalidUlid (val : String)
  /-- `Invalid RID format: '<value>'` from `RID.validate`. -/
  | invalidFormat (val : String)
  /-- `RID must have 5 parts, got <n>` from `RID.validate`. -/
  | wrongParts (n : Nat)
  /-- `RID prefix '<got>' must be '<expected>'` from `RID.validate`. -/
  | prefixMismatch (got expected : String)
deriving DecidableEq

/-- Python set difference `a - b` on the reserved-word sets, as list
filtering. -/
def listDiff (xs ys : List String) : List String :=
  xs.filter (fun x => decide (x ∉ ys))

/-- Embeds `validate_string` (src/registro/models/patterns.py): pattern
match first, then the reserved-word check against the lower-cased value
(skipped when the reserved set is empty, Python falsiness of an empty
set). -/
def validate_string (v pattern : String) (reserved : List String)
    (fieldName : String) : Except VErr String :=
  if ¬ reMatch pattern v then Except.error (VErr.patternMismatch fieldName v)
  else if reserved ≠ [] ∧ pyLower v ∈ reserved then
    Except.error (VErr.reservedWord fieldName v)
  else Except.ok v

/-- Embeds `ConstrainedStr.validate`: fetch the compiled pattern named
`patternName` from settings (`_get_pattern`, raising a configuration error
when absent), compute the effective reserved words, and run
`validate_string`. -/
def constrainedValidate (compiles : String → Bool) (st : Settings)
    (patternName : String) (reserved : List String) (fieldName : String)
    (v : String) : Except VErr String × Settings :=
  match get_compiled_pattern compiles st patternName with
  | (none, st') => (Except.error (VErr.configMissing fieldName), st')
  | (some p, st') => (validate_string v p reserved fieldName, st')

/-- Embeds `ServiceStr.validate`: pattern `SERVICE`, reserved words minus
the configured `DEFAULT_SERVICE`. -/
def ServiceStr_validate (compiles : String → Bool) (st : Settings)
    (v : String) : Except VErr String × Settings :=
  constrainedValidate compiles st "SERVICE"
    (listDiff st.reservedWords [st.defaultService]) "ServiceStr" v

/-- Embeds `InstanceStr.validate`: pattern `INSTANCE`, reserved words minus
the configured `DEFAULT_INSTANCE`. -/
def InstanceStr_validate (compiles : String → Bool) (st : Settings)
    (v : String) : Except VErr String × Settings :=
  constrainedValidate compiles st "INSTANCE"
    (listDiff st.reservedWords [st.defaultInstance]) "InstanceStr" v

/-- The `allowed_exceptions` class attribute of `TypeStr`. -/
def typeAllowedExceptions : List String :=
  ["resource", "object", "link", "action", "query", "property-type", "object-type"]

/-- Embeds `TypeStr.validate`: pattern `TYPE`, reserved words minus
`TypeStr.allowed_exceptions`. -/
def TypeStr_validate (compiles : String → Bool) (st : Settings)
    (v : String) : Except VErr String × Settings :=
  constrainedValidate compiles st "TYPE"
    (listDiff st.reservedWords typeAllowedExceptions) "TypeStr" v

/-- Model of the external `ulid.parse` check used by `LocatorStr.validate`:
parsing succeeds exactly on 26-character strings over the Crockford
alphabet (every string that already matched the `LOCATOR` pattern parses,
so this stricter-than-needed model is exact on all reachable inputs). -/
def ulidParses (s : String) : Bool :=
  s.data.length = 26 && s.data.all isCrockford

/-- Embeds `LocatorStr.validate`: the base `validate_string` run with
pattern `LOCATOR` and the full reserved set, then the additional
`ulid.parse` check. -/
def LocatorStr_validate (compiles : String → Bool) (st : Settings)
    (v : String) : Except VErr String × Settings :=
  match get_compiled_pattern compiles st "LOCATOR" with
  | (none, st') => (Except.error (VErr.configMissing "LocatorStr"), st')
  | (some p, st') =>
    match validate_string v p (listDiff st.reservedWords []) "LocatorStr" with
    | Except.error e => (Except.error e, st')
    | Except.ok w =>
      if ulidParses w then (Except.ok w, st')
      else (Except.error (VErr.invalidUlid w), st')

/-- The Crockford base32 digit alphabet used by the external ulid library
to render a ULID (digits and uppercase letters without `I`, `L`, `O`,
`U`). -/
def crockfordDigits : List Char := "0123456789ABCDEFGHJKMNPQRSTVWXYZ".toList

/-- Render a 128-bit ULID value as its canonical 26-character Crockford
base32 string, most significant digit first; the semantics of
`str(ulid_value)` in the external ulid library. -/
def crockford26 (v : Nat) : String :=
  String.mk ((List.range 26).map (fun i => crockfordDigits.getD (v / 32 ^ (25 - i) % 32) '0'))

/-- The 128-bit integer value of a ULID built from a millisecond timestamp
and 80 random bits, as produced by the external `ulid.new()`. -/
def ulidVal (t r : Nat) : Nat := (t % 2 ^ 48) * 2 ^ 80 + r % 2 ^ 80

/-- Embeds `generate_ulid` (src/registro/models/rid.py).  The thread-local
`last_ulid` is `last`; each call to the external `ulid.new()` consumes a
fresh (timestamp, randomness) pair, supplied here as explicit inputs.  When
`last` is `None` the single `ulid.new()` in the `else` branch uses
`(t1, r1)`.  When `last` holds a prior value, the code runs
`ulid.new().monotonic()`: `ulid.new()` (inputs `(t1, r1)`) succeeds, but a
ULID object of the ulid-py library has no `monotonic` method, so the
`AttributeError` handler runs a second `ulid.new()` with inputs `(t2, r2)`
and that value is kept.  In both branches the result is independent of the
value stored in `last`.  Returns the value stored back into thread-local
state and the returned string. -/
def generate_ulid (last : Option Nat) (t1 r1 t2 r2 : Nat) : Nat × String :=
  match last with
  | none => (ulidVal t1 r1, crockford26 (ulidVal t1 r1))
  | some _ =>
    let _unusedTry := ulidVal t1 r1
    (ulidVal t2 r2, crockford26 (ulidVal t2 r2))

/-- The f-string `f"{prefix}.{service}.{instance}.{type_}.{locator}"` of
`RID.generate`. -/
def mkRidString (p s i t l : String) : String :=
  p ++ "." ++ s ++ "." ++ i ++ "." ++ t ++ "." ++ l

/-- Embeds `RID.validate` (src/registro/models/rid.py): fetch the compiled
pattern named `RID` (a missing pattern and a pattern mismatch raise the
same `Invalid RID format` error, from `not rid_pattern or not
rid_pattern.match(v)`), split on dots into exactly five parts, compare the
first part with the configured prefix, then run the four component
validators in order.  Input is already a string here, so the Python
`isinstance` guard cannot fire. -/
def RID_validate (compiles : String → Bool) (st : Settings)
    (v : String) : Except VErr String × Settings :=
  match get_compiled_pattern compiles st "RID" with
  | (none, st1) => (Except.error (VErr.invalidFormat v), st1)
  | (some p, st1) =>
    if ¬ reMatch p v then (Except.error (VErr.invalidFormat v), st1)
    else
      match pySplitDot v with
      | [pfx, svc, inst, ty, loc] =>
        if pfx ≠ st1.ridPrefixVal then
          (Except.error (VErr.prefixMismatch pfx st1.ridPrefixVal), st1)
        else
          match ServiceStr_validate compiles st1 svc with
          | (Except.error e, st2) => (Except.error e, st2)
          | (Except.ok _, st2) =>
            match InstanceStr_validate compiles st2 inst with
            | (Except.error e, st3) => (Except.error e, st3)
            | (Except.ok _, st3) =>
              match TypeStr_validate compiles st3 ty with
              | (Except.error e, st4) => (Except.error e, st4)
              | (Except.ok _, st4) =>
                match LocatorStr_validate compiles st4 loc with
                | (Except.error e, st5) => (Except.error e, st5)
                | (Except.ok _, st5) => (Except.ok v, st5)
      | parts => (Except.error (VErr.wrongParts parts.length), st1)

/-- Embeds `RID.generate` (src/registro/models/rid.py): `service or
settings.DEFAULT_SERVICE` substitutes the default for an omitted (`None`)
or empty-string argument, likewise for `instance`; each component is
validated by its wrapper (failures propagate); an omitted locator is
produced by `generate_ulid` (with its thread-local state and external
inputs threaded through), a supplied one is validated; the parts are then
joined with dots.  Returns the result, the settings (pattern cache) after
the call, and the thread-local `last_ulid` after the call. -/
def RID_generate (compiles : String → Bool) (st : Settings)
    (serviceOpt instanceOpt : Option String) (type_ : String)
    (locator : Option String) (last : Option Nat) (t1 r1 t2 r2 : Nat) :
    Except VErr String × Settings × Option Nat :=
  let serviceArg := match serviceOpt with
    | none => st.defaultService
    | some s => if s = "" then st.defaultService else s
  let instanceArg := match instanceOpt with
    | none => st.defaultInstance
    | some s => if s = "" then st.defaultInstance else s
  match ServiceStr_validate compiles st serviceArg with
  | (Except.error e, st1) => (Except.error e, st1, last)
  | (Except.ok svc, st1) =>
    match InstanceStr_validate compiles st1 instanceArg with
    | (Except.error e, st2) => (Except.error e, st2, last)
    | (Except.ok inst, st2) =>
      match TypeStr_validate compiles st2 type_ with
      | (Except.error e, st3) => (Except.error e, st3, last)
      | (Except.ok ty, st3) =>
        match locator with
        | none =>
          let (newLast, loc) := generate_ulid last t1 r1 t2 r2
          (Except.ok (mkRidString st3.ridPrefixVal svc inst ty loc), st3, some newLast)
        | some l =>
          match LocatorStr_validate compiles st3 l with
          | (Except.error e, st4) => (Except.error e, st4, last)
          | (Except.ok loc, st4) =>
            (Except.ok (mkRidString st4.ridPrefixVal svc inst ty loc), st4, last)

/-- Embeds `RID.components` (src/registro/models/rid.py): split the stored
string on dots, raise unless there are exactly five parts, and return the
named component dictionary in insertion order prefix, service, instance,
type, locator. -/
def RID_components (v : String) : Except VErr (List (String × String)) :=
  match pySplitDot v with
  | [a, b, c, d, e] =>
    Except.ok [("prefix", a), ("service", b), ("instance", c), ("type", d), ("locator", e)]
  | parts => Except.error (VErr.wrongParts parts.length)

/-- Join the five component values back with dots in the order prefix,
service, instance, type, locator (the spec's `join`). -/
def joinComponents (comps : List (String × String)) : String :=
  String.intercalate "." (comps.map Prod.snd)

/-- Error kinds raised by `GlobalRegistry.register`
(src/registro/core/global_registry.py). -/
inductive RegErr where
  /-- `ValueError: Resource type name must be a non-empty string`. -/
  | invalidName
  /-- `ValueError: Resource type '<name>' already registered ...`. -/
  | duplicate (name : String)
deriving DecidableEq

section Registry

variable {C : Type u} [DecidableEq C]

/-- The `_types` dict of `GlobalRegistry`, mapping resource-type names to
classes; classes are an arbitrary type `C` with decidable equality. -/
abbrev Registry (C : Type u) := List (String × C)

/-- Embeds `GlobalRegistry.register`: reject an empty name (the
`isinstance` arm cannot fire on a value that is a string), raise a
duplicate error when the name is bound to a different class without
`allow_override` (overriding merely logs a warning), then store the
binding.  An exception leaves `_types` untouched, so the registry is
returned alongside the result. -/
def register (reg : Registry C) (name : String) (cls : C)
    (allowOverride : Bool) : Except RegErr Unit × Registry C :=
  if name = "" then (Except.error RegErr.invalidName, reg)
  else
    match alistLookup name reg with
    | some old =>
      if old ≠ cls ∧ ¬ allowOverride then
        (Except.error (RegErr.duplicate name), reg)
      else (Except.ok (), alistUpdate name cls reg)
    | none => (Except.ok (), alistUpdate name cls reg)

/-- Embeds `GlobalRegistry.get`. -/
def regGet (reg : Registry C) (name : String) : Option C :=
  alistLookup name reg

/-- Embeds `GlobalRegistry.get_or_error`: a missing name raises a
`KeyError` whose payload lists the currently registered names, sorted. -/
def get_or_error (reg : Registry C) (name : String) : Except (List String) C :=
  match alistLookup name reg with
  | some cls => Except.ok cls
  | none => Except.error ((reg.map Prod.fst).insertionSort (· ≤ ·))

/-- Embeds `GlobalRegistry.list_types` (dict keys in insertion order). -/
def list_types (reg : Registry C) : List String :=
  reg.map Prod.fst

/-- Embeds `GlobalRegistry.is_registered`. -/
def is_registered (reg : Registry C) (name : String) : Bool :=
  (alistLookup name reg).isSome

end Registry

/-- The `_immutable_fields` class attribute of `Resource`
(src/registro/core/resource.py). -/
def immutableFields : List String :=
  ["id", "rid", "service", "instance", "resource_type"]

/-- Error raised by `Resource.__setattr__` on an immutable field
(`AttributeError: Cannot modify immutable field '<name>'`). -/
inductive AttrErr where
  | immutableField (name : String)
deriving DecidableEq

/-- The attribute dictionary of a `Resource` instance: a present attribute
maps to its value, `some none` meaning the attribute holds Python `None`
and `none` meaning `hasattr` is false. -/
abbrev AttrState := List (String × Option String)

/-- Embeds `Resource.__setattr__`: non-protected fields pass straight
through; a protected field may be created when absent (`hasattr` false) or
overwritten while it holds `None`; once it holds a non-`None` value,
assigning a different value raises and assigning the same value is
re-stored unchanged.  An exception leaves the attribute state untouched. -/
def resource_setattr (st : AttrState) (name : String) (v : Option String) :
    Except AttrErr Unit × AttrState :=
  if name ∉ immutableFields then (Except.ok (), alistUpdate name v st)
  else
    match alistLookup name st with
    | none => (Except.ok (), alistUpdate name v st)
    | some cur =>
      if cur = none then (Except.ok (), alistUpdate name v st)
      else if v ≠ cur then (Except.error (AttrErr.immutableField name), st)
      else (Except.ok (), alistUpdate name v st)

universe v

/-- Decidable equality for `Except` results, so that concrete runs of the
embedded functions can be checked by `decide`. -/
instance exceptDecEq {ε : Type u} {β : Type v} [DecidableEq ε] [DecidableEq β] :
    DecidableEq (Except ε β) := fun x y =>
  match x, y with
  | Except.ok a, Except.ok b =>
    if h : a = b then Decidable.isTrue (by rw [h])
    else Decidable.isFalse (fun he => h (Except.ok.inj he))
  | Except.error a, Except.error b =>
    if h : a = b then Decidable.isTrue (by rw [h])
    else Decidable.isFalse (fun he => h (Except.error.inj he))
  | Except.ok _, Except.error _ => Decidable.isFalse (fun he => Except.noConfusion he)
  | Except.error _, Except.ok _ => Decidable.isFalse (fun he => Except.noConfusion he)

/-- The effective reserved words of `TypeStr` under default settings:
`settings.RESERVED_WORDS - TypeStr.allowed_exceptions`. -/
def typeEffectiveReserved : List String := listDiff defaultReservedWords typeAllowedExceptions

/-- Default settings after `RID.generate` has compiled and cached the
`SERVICE` pattern. -/
def genSettings1 : Settings :=
  { defaultSettings with cache := [("SERVICE", "^[a-z][a-z-]\x7b0,49\x7d$")] }

/-- Default settings after `RID.generate` has compiled and cached the
`SERVICE` and `INSTANCE` patterns. -/
def genSettings2 : Settings :=
  { defaultSettings with cache :=
      [("SERVICE", "^[a-z][a-z-]\x7b0,49\x7d$"),
       ("INSTANCE", "^[a-z0-9][a-z0-9-]\x7b0,49\x7d$")] }

/-- Default settings after `RID.generate` has compiled and cached the
`SERVICE`, `INSTANCE` and `TYPE` patterns. -/
def genSettings3 : Settings :=
  { defaultSettings with cache :=
      [("SERVICE", "^[a-z][a-z-]\x7b0,49\x7d$"),
       ("INSTANCE", "^[a-z0-9][a-z0-9-]\x7b0,49\x7d$"),
       ("TYPE", "^[a-z][a-z-]\x7b0,49\x7d$")] }

theorem validate_string_ok_match (val p : String) (rs : List String) (f w : String)
    (h : validate_string val p rs f = Except.ok w) : reMatch p val = true := by
  by_cases hm : reMatch p val
  · exact hm
  · simp [validate_string, hm] at h

theorem crockford26_length (n : Nat) : (crockford26 n).length = 26 := by
  simp [crockford26, String.length]

theorem crockford26_mem (n : Nat) : ∀ c ∈ (crockford26 n).data, c ∈ crockfordDigits := by
  intro c hc
  have hd : (crockford26 n).data =
      (List.range 26).map (fun i => crockfordDigits.getD (n / 32 ^ (25 - i) % 32) '0') := rfl
  rw [hd] at hc
  simp only [List.mem_map] at hc
  obtain ⟨i, _, hci⟩ := hc
  have hlt : n / 32 ^ (25 - i) % 32 < 32 := Nat.mod_lt _ (by norm_num)
  have key : ∀ j : Fin 32, crockfordDigits.getD j.val '0' ∈ crockfordDigits := by decide
  have h2 := key ⟨n / 32 ^ (25 - i) % 32, hlt⟩
  rw [← hci]
  simpa using h2

theorem crockford_ne_dot : ∀ c ∈ crockfordDigits, c ≠ '.' := by decide

theorem isLowerHyphen_ne_dot (c : Char) (h : isLowerHyphen c = true) : c ≠ '.' := by
  intro he; subst he; exact absurd h (by decide)

theorem isLowerAlpha_ne_dot (c : Char) (h : isLowerAlpha c = true) : c ≠ '.' := by
  intro he; subst he; exact absurd h (by decide)

theorem matchLowerHyphen_no_dot (n : Nat) (s : String)
    (h : matchLowerHyphen n s = true) : ∀ c ∈ s.data, c ≠ '.' := by
  intro c hc
  unfold matchLowerHyphen at h
  cases hd : s.data with
  | nil => rw [hd] at h; simp at h
  | cons c0 rest =>
    rw [hd] at h hc
    simp only [Bool.and_eq_true] at h
    obtain ⟨⟨h1, _⟩, h3⟩ := h
    rcases List.mem_cons.mp hc with rfl | hmem
    · exact isLowerAlpha_ne_dot c h1
    · exact isLowerHyphen_ne_dot c (List.all_eq_true.mp h3 c hmem)

theorem stringMk_data (s : String) : String.mk s.data = s := rfl

theorem pySplitDot_mkRidString (p s i t l : String)
    (hp : ∀ c ∈ p.data, c ≠ '.') (hs : ∀ c ∈ s.data, c ≠ '.')
    (hi : ∀ c ∈ i.data, c ≠ '.') (ht : ∀ c ∈ t.data, c ≠ '.')
    (hl : ∀ c ∈ l.data, c ≠ '.') :
    pySplitDot (mkRidString p s i t l) = [p, s, i, t, l] := by
  have hdata : (mkRidString p s i t l).data =
      p.data ++ '.' :: (s.data ++ '.' :: (i.data ++ '.' :: (t.data ++ '.' :: l.data))) := by
    simp [mkRidString, String.data_append]
  unfold pySplitDot
  rw [hdata]
  rw [splitCh_append_sep '.' _ _ hp, splitCh_append_sep '.' _ _ hs,
    splitCh_append_sep '.' _ _ hi, splitCh_append_sep '.' _ _ ht,
    splitCh_no_sep '.' _ hl]
  simp [stringMk_data]

theorem generate_ulid_is_crockford (last : Option Nat) (t1 r1 t2 r2 : Nat) :
    ∃ n : Nat, (generate_ulid last t1 r1 t2 r2).2 = crockford26 n := by
  cases last with
  | none => exact ⟨ulidVal t1 r1, rfl⟩
  | some _ => exact ⟨ulidVal t2 r2, rfl⟩

theorem RID_generate_default_ok (t w : String) (last : Option Nat) (t1 r1 t2 r2 : Nat)
    (hv : validate_string t "^[a-z][a-z-]\x7b0,49\x7d$" typeEffectiveReserved "TypeStr"
            = Except.ok w) :
    RID_generate reOracle defaultSettings none none t none last t1 r1 t2 r2 =
      (Except.ok (mkRidString "ri" "default" "prod" w ((generate_ulid last t1 r1 t2 r2).2)),
       genSettings3, some ((generate_ulid last t1 r1 t2 r2).1)) := by
  have hSvc : ServiceStr_validate reOracle defaultSettings "default" =
      (Except.ok "default", genSettings1) := by decide
  have hInst : InstanceStr_validate reOracle genSettings1 "prod" =
      (Except.ok "prod", genSettings2) := by decide
  have hTy : TypeStr_validate reOracle genSettings2 t =
      (validate_string t "^[a-z][a-z-]\x7b0,49\x7d$" typeEffectiveReserved "TypeStr",
       genSettings3) := rfl
  simp only [RID_generate, show defaultSettings.defaultService = "default" from rfl,
    show defaultSettings.defaultInstance = "prod" from rfl]
  split
  next e st1 heq => rw [hSvc] at heq; simp at heq
  next svc st1 heq =>
    rw [hSvc] at heq
    simp only [Prod.mk.injEq, Except.ok.injEq] at heq
    obtain ⟨h1, h2⟩ := heq
    subst h1; subst h2
    split
    next e st2 heq2 => rw [hInst] at heq2; simp at heq2
    next inst st2 heq2 =>
      rw [hInst] at heq2
      simp only [Prod.mk.injEq, Except.ok.injEq] at heq2
      obtain ⟨h1, h2⟩ := heq2
      subst h1; subst h2
      rw [hTy, hv]
      rfl

theorem patternMapping_lookup_lower (name w : String)
    (h : alistLookup name patternMapping = some w) : w = pyLower name := by
  simp only [patternMapping, alistLookup] at h
  repeat' split at h
  all_goals first
    | exact Option.noConfusion h
    | (rename_i hcond
       injection h with hv
       subst hv
       rw [← hcond]
       decide)

theorem get_pattern_string_lower (st : Settings) (name : String) :
    get_pattern_string st name = alistLookup (pyLower name) st.patterns := by
  unfold get_pattern_string
  cases h : alistLookup name patternMapping with
  | none => simp [h]
  | some w => simp [h, patternMapping_lookup_lower name w h]

/-- Claim C1 (code bug).  The claim says `RID.validate` returns every valid
RID unchanged and that joining `components` reproduces it.  On the string
`ri.svc.inst.t.00000000000000000000000000` — whose prefix equals the
configured prefix and whose four components each pass their component
validator, and for which `components`/join do round-trip — `RID.validate`
nevertheless raises `Invalid RID format`, because
`settings.get_compiled_pattern("RID")` looks up the attribute
`_pattern_rid`, which `Settings` never defines, and so returns `None` for
every input. -/
theorem C1_validate_rejects_componentwise_valid_rid :
    defaultSettings.ridPrefixVal = "ri" ∧
    (ServiceStr_validate reOracle defaultSettings "svc").1 = Except.ok "svc" ∧
    (InstanceStr_validate reOracle defaultSettings "inst").1 = Except.ok "inst" ∧
    (TypeStr_validate reOracle defaultSettings "t").1 = Except.ok "t" ∧
    (LocatorStr_validate reOracle defaultSettings "00000000000000000000000000").1 =
      Except.ok "00000000000000000000000000" ∧
    RID_components "ri.svc.inst.t.00000000000000000000000000" =
      Except.ok [("prefix", "ri"), ("service", "svc"), ("instance", "inst"),
                 ("type", "t"), ("locator", "00000000000000000000000000")] ∧
    joinComponents [("prefix", "ri"), ("service", "svc"), ("instance", "inst"),
                 ("type", "t"), ("locator", "00000000000000000000000000")] =
      "ri.svc.inst.t.00000000000000000000000000" ∧
    (RID_validate reOracle defaultSettings "ri.svc.inst.t.00000000000000000000000000").1 =
      Except.error (VErr.invalidFormat "ri.svc.inst.t.00000000000000000000000000") ∧
    (get_compiled_pattern reOracle defaultSettings "RID").1 = none := by decide

/-- Claim C2 (code bug).  The claim says sequential same-thread calls to the
locator generator are pairwise distinct and non-decreasing, a second
same-millisecond call being bumped strictly above the value held in
thread-local state.  The code stores the prior ULID but never feeds it into
the next value (the monotonic attempt `ulid.new().monotonic()` raises
`AttributeError` and falls back to a fresh `ulid.new()`), so with both
calls in millisecond 0 — randomness 1 for the first `ulid.new()` of each
call and randomness 0 for the second call's fallback — the second returned
locator is lexicographically smaller than the first, though both are valid
26-character locators. -/
theorem C2_same_millisecond_not_monotonic :
    (generate_ulid none 0 1 0 0).2 = "00000000000000000000000001" ∧
    (generate_ulid (some (generate_ulid none 0 1 0 0).1) 0 7 0 0).2 =
      "00000000000000000000000000" ∧
    ((generate_ulid (some (generate_ulid none 0 1 0 0).1) 0 7 0 0).2).data <
      ((generate_ulid none 0 1 0 0).2).data ∧
    matchLocatorShape (generate_ulid none 0 1 0 0).2 = true ∧
    matchLocatorShape (generate_ulid (some (generate_ulid none 0 1 0 0).1) 0 7 0 0).2 =
      true := by
  decide

/-- Claim C3, counterexample.  The claim says the type validator rejects
every string of length below 2, in particular `"a"`; in fact
`TypeStr.validate("a")` succeeds, because the `TYPE` pattern installed by
`Settings.__init__` is `^[a-z][a-z-]{0,49}$`, which admits length 1. -/
theorem C3_counterexample_single_char :
    (TypeStr_validate reOracle defaultSettings "a").1 = Except.ok "a" ∧
    ¬ (2 ≤ "a".length) := by
  decide

/-- Claim C3, amended.  Under default settings, `TypeStr.validate` accepts a
string only if it starts with a lowercase letter, contains only lowercase
letters and hyphens, and has length between 1 and 50 inclusive (the lower
bound is 1, not the claimed 2). -/
theorem C3_type_validator_shape (s : String)
    (h : (TypeStr_validate reOracle defaultSettings s).1 = Except.ok s) :
    1 ≤ s.length ∧ s.length ≤ 50 ∧
    (∃ c cs, s.data = c :: cs ∧ 'a' ≤ c ∧ c ≤ 'z') ∧
    (∀ c ∈ s.data, ('a' ≤ c ∧ c ≤ 'z') ∨ c = '-') := by
  have hv : validate_string s "^[a-z][a-z-]\x7b0,49\x7d$" typeEffectiveReserved "TypeStr"
      = Except.ok s := h
  have hm : matchLowerHyphen 49 s = true := validate_string_ok_match _ _ _ _ _ hv
  unfold matchLowerHyphen at hm
  cases hd : s.data with
  | nil => rw [hd] at hm; simp at hm
  | cons c0 rest =>
    rw [hd] at hm
    simp only [Bool.and_eq_true] at hm
    obtain ⟨⟨h1, h2⟩, h3⟩ := hm
    have hlen : s.length = rest.length + 1 := by
      show s.data.length = rest.length + 1
      rw [hd]; rfl
    have h1a : 'a' ≤ c0 ∧ c0 ≤ 'z' := by
      simpa [isLowerAlpha, Bool.and_eq_true, decide_eq_true_eq] using h1
    have h2a : rest.length ≤ 49 := by simpa using h2
    refine ⟨by omega, by omega, ⟨c0, rest, rfl, h1a⟩, ?_⟩
    intro c hc
    rcases List.mem_cons.mp hc with rfl | hmem
    · exact Or.inl h1a
    · have hmem2 := List.all_eq_true.mp h3 c hmem
      simpa [isLowerHyphen, isLowerAlpha, Bool.or_eq_true, Bool.and_eq_true,
        decide_eq_true_eq] using hmem2

/-- Witness for C3: the two-letter type name `ab` is accepted and satisfies
the shape bounds. -/
theorem C3_type_validator_shape_witness :
    (TypeStr_validate reOracle defaultSettings "ab").1 = Except.ok "ab" ∧
    (1 ≤ "ab".length ∧ "ab".length ≤ 50 ∧
     (∃ c cs, "ab".data = c :: cs ∧ 'a' ≤ c ∧ c ≤ 'z') ∧
     (∀ c ∈ "ab".data, ('a' ≤ c ∧ c ≤ 'z') ∨ c = '-')) :=
  ⟨by decide, C3_type_validator_shape "ab" (by decide)⟩

/-- Claim C4 (confirmed).  Under the default configuration (prefix `ri`,
default service `default`, default instance `prod`), for every type name
accepted by the type validator, `RID.generate(type_=t)` with no service,
instance or locator argument returns
`ri.default.prod.<t>.<locator>`, which splits on dots into exactly the five
parts `ri`, `default`, `prod`, `t` and a 26-character locator drawn from
the Crockford base32 alphabet. -/
theorem C4_generate_default_shape (t : String)
    (ht : (TypeStr_validate reOracle defaultSettings t).1 = Except.ok t)
    (last : Option Nat) (t1 r1 t2 r2 : Nat) :
    ∃ loc : String,
      (RID_generate reOracle defaultSettings none none t none last t1 r1 t2 r2).1 =
        Except.ok ("ri.default.prod." ++ t ++ "." ++ loc) ∧
      pySplitDot ("ri.default.prod." ++ t ++ "." ++ loc) =
        ["ri", "default", "prod", t, loc] ∧
      loc.length = 26 ∧ (∀ c ∈ loc.data, c ∈ crockfordDigits) := by
  have hv : validate_string t "^[a-z][a-z-]\x7b0,49\x7d$" typeEffectiveReserved "TypeStr"
      = Except.ok t := ht
  have hm : matchLowerHyphen 49 t = true := validate_string_ok_match _ _ _ _ _ hv
  have htdot : ∀ c ∈ t.data, c ≠ '.' := matchLowerHyphen_no_dot 49 t hm
  obtain ⟨n, hn⟩ := generate_ulid_is_crockford last t1 r1 t2 r2
  refine ⟨(generate_ulid last t1 r1 t2 r2).2, ?_, ?_, ?_, ?_⟩
  · rw [RID_generate_default_ok t t last t1 r1 t2 r2 hv]; rfl
  · have hmk : ("ri.default.prod." ++ t ++ "." ++ (generate_ulid last t1 r1 t2 r2).2)
        = mkRidString "ri" "default" "prod" t ((generate_ulid last t1 r1 t2 r2).2) := rfl
    rw [hmk]
    refine pySplitDot_mkRidString _ _ _ _ _ (by decide) (by decide) (by decide) htdot ?_
    intro c hc
    rw [hn] at hc
    exact crockford_ne_dot c (crockford26_mem n c hc)
  · rw [hn]; exact crockford26_length n
  · intro c hc; rw [hn] at hc; exact crockford26_mem n c hc

/-- Witness for C4: generating with type `book` and concrete timestamp and
randomness inputs. -/
theorem C4_generate_default_shape_witness :
    (TypeStr_validate reOracle defaultSettings "book").1 = Except.ok "book" ∧
    (∃ loc : String,
      (RID_generate reOracle defaultSettings none none "book" none none 0 0 0 0).1 =
        Except.ok ("ri.default.prod." ++ "book" ++ "." ++ loc) ∧
      pySplitDot ("ri.default.prod." ++ "book" ++ "." ++ loc) =
        ["ri", "default", "prod", "book", loc] ∧
      loc.length = 26 ∧ (∀ c ∈ loc.data, c ∈ crockfordDigits)) :=
  ⟨by decide, C4_generate_default_shape "book" (by decide) none 0 0 0 0⟩

/-- Claim C5 (code bug).  The claim says a 4-part string fails with the
malformed-RID error reporting a wrong number of parts, and a 5-part string
with an uppercase service fails with a component pattern-mismatch error.
In fact both inputs fail with the whole-RID `Invalid RID format` error,
because the broken `RID` pattern lookup is the first check and it fails for
every input, so the `RID must have 5 parts` branch is unreachable. -/
theorem C5_four_part_error_kind :
    pySplitDot "ri.svc.inst.t" = ["ri", "svc", "inst", "t"] ∧
    (RID_validate reOracle defaultSettings "ri.svc.inst.t").1 =
      Except.error (VErr.invalidFormat "ri.svc.inst.t") ∧
    VErr.invalidFormat "ri.svc.inst.t" ≠ VErr.wrongParts 4 ∧
    (RID_validate reOracle defaultSettings
        "ri.Svc.inst.valid-type.00000000000000000000000000").1 =
      Except.error (VErr.invalidFormat "ri.Svc.inst.valid-type.00000000000000000000000000") := by
  decide

/-- Claim C6 (confirmed).  After `register("x", A)` succeeds,
re-registering `"x"` to a different class `B` without override raises the
duplicate error and leaves `"x"` bound to `A`; the same call with
`allow_override=True` succeeds and rebinds `"x"` to `B`; and re-registering
the same class `A` under `"x"` succeeds as a no-op. -/
theorem C6_registry_override_policy (C : Type u) [DecidableEq C] (reg : Registry C)
    (A B : C) (hAB : A ≠ B) (hok : (register reg "x" A false).1 = Except.ok ()) :
    regGet (register reg "x" A false).2 "x" = some A ∧
    (register (register reg "x" A false).2 "x" B false).1 =
      Except.error (RegErr.duplicate "x") ∧
    regGet (register (register reg "x" A false).2 "x" B false).2 "x" = some A ∧
    (register (register reg "x" A false).2 "x" B true).1 = Except.ok () ∧
    regGet (register (register reg "x" A false).2 "x" B true).2 "x" = some B ∧
    (register (register reg "x" A false).2 "x" A false).1 = Except.ok () ∧
    regGet (register (register reg "x" A false).2 "x" A false).2 "x" = some A := by
  have hxe : ¬ (("x" : String) = "") := by decide
  have hreg1 : (register reg "x" A false).2 = alistUpdate "x" A reg := by
    unfold register
    cases hx : alistLookup "x" reg with
    | none => simp [hxe, hx]
    | some old =>
      by_cases hdiff : old = A
      · simp [hxe, hx, hdiff]
      · exfalso
        have h2 := hok
        unfold register at h2
        simp [hxe, hx, hdiff] at h2
  rw [hreg1]
  have hlook : alistLookup "x" (alistUpdate "x" A reg) = some A :=
    alistLookup_update_self "x" A reg
  refine ⟨hlook, ?_, ?_, ?_, ?_, ?_, ?_⟩
  · unfold register; simp [hxe, hlook, hAB]
  · unfold register; simp [regGet, hxe, hlook, hAB]
  · unfold register; simp [hxe, hlook, hAB]
  · unfold register
    simp [regGet, hxe, hlook, hAB, alistLookup_update_self]
  · unfold register; simp [hxe, hlook]
  · unfold register
    simp [regGet, hxe, hlook, alistLookup_update_self]

/-- Witness for C6: classes `0` and `1` over an initially empty registry. -/
theorem C6_registry_override_policy_witness :
    ((0 : Nat) ≠ 1) ∧ ((register ([] : Registry Nat) "x" 0 false).1 = Except.ok ()) ∧
    (regGet (register ([] : Registry Nat) "x" 0 false).2 "x" = some 0 ∧
     (register (register ([] : Registry Nat) "x" 0 false).2 "x" 1 false).1 =
       Except.error (RegErr.duplicate "x") ∧
     regGet (register (register ([] : Registry Nat) "x" 0 false).2 "x" 1 false).2 "x" =
       some 0 ∧
     (register (register ([] : Registry Nat) "x" 0 false).2 "x" 1 true).1 =
       Except.ok () ∧
     regGet (register (register ([] : Registry Nat) "x" 0 false).2 "x" 1 true).2 "x" =
       some 1 ∧
     (register (register ([] : Registry Nat) "x" 0 false).2 "x" 0 false).1 =
       Except.ok () ∧
     regGet (register (register ([] : Registry Nat) "x" 0 false).2 "x" 0 false).2 "x" =
       some 0) :=
  ⟨by decide, by decide,
   C6_registry_override_policy Nat [] 0 1 (by decide) (by decide)⟩

/-- Claim C7, counterexample.  The claim says a successful
`set_pattern(name, p)` invalidates the cached compiled form for that name,
so a later `get_compiled_pattern(name)` compiles the new string.  With the
lowercase name `"service"`: after `get_compiled_pattern("service")` has
cached the compiled pattern under the key `"service"`,
`set_pattern("service", new)` succeeds and stores the new string but pops
only the uppercased key `"SERVICE"`, so `get_compiled_pattern("service")`
still returns the stale pattern compiled from the old string. -/
theorem C7_counterexample_stale_cache :
    (set_pattern reOracle (get_compiled_pattern reOracle defaultSettings "service").2
        "service" "^[a-z]\x7b3\x7d$").1 = Except.ok () ∧
    get_pattern_string
        (set_pattern reOracle (get_compiled_pattern reOracle defaultSettings "service").2
          "service" "^[a-z]\x7b3\x7d$").2 "service" = some "^[a-z]\x7b3\x7d$" ∧
    (get_compiled_pattern reOracle
        (set_pattern reOracle (get_compiled_pattern reOracle defaultSettings "service").2
          "service" "^[a-z]\x7b3\x7d$").2 "service").1 = some "^[a-z][a-z-]\x7b0,49\x7d$" ∧
    ("^[a-z][a-z-]\x7b0,49\x7d$" : String) ≠ "^[a-z]\x7b3\x7d$" := by decide

/-- Claim C7, amended.  For a known pattern name, `set_pattern` with a
non-compiling string raises the invalid-pattern error and leaves the
settings unchanged; and when it succeeds with a name in canonical
all-uppercase spelling and a nonempty pattern string, the cache entry for
that name is invalidated, so the next `get_compiled_pattern` for that name
returns the pattern compiled from the new string.  (For a name that is not
its own uppercasing, only the uppercased cache key is popped and a cache
entry under the given spelling goes stale.) -/
theorem C7_set_pattern_invalidation (compiles : String → Bool) (st : Settings)
    (name ps : String)
    (hknown : (alistLookup (pyLower name) st.patterns).isSome = true) :
    (compiles ps = false →
       set_pattern compiles st name ps = (Except.error (SErr.invalidPattern name), st)) ∧
    (compiles ps = true → pyUpper name = name → ps ≠ "" →
       (set_pattern compiles st name ps).1 = Except.ok () ∧
       (get_compiled_pattern compiles (set_pattern compiles st name ps).2 name).1 =
         some ps) := by
  constructor
  · intro hc
    unfold set_pattern
    simp [hknown, hc]
  · intro hc hup hne
    have hsp : set_pattern compiles st name ps =
        (Except.ok (),
         { st with patterns := alistUpdate (pyLower name) ps st.patterns
                   cache := alistEraseKey (pyUpper name) st.cache }) := by
      unfold set_pattern
      simp [hknown, hc]
    refine ⟨by rw [hsp], ?_⟩
    rw [hsp]
    unfold get_compiled_pattern
    simp only [hup, alistLookup_erase_self]
    rw [get_pattern_string_lower]
    simp only [alistLookup_update_self]
    simp [hne, hc]

/-- Witness for C7: the canonical name `SERVICE` and the compiling pattern
`^[a-z]\x7b4\x7d$` over the default settings. -/
theorem C7_set_pattern_invalidation_witness :
    (alistLookup (pyLower "SERVICE") defaultSettings.patterns).isSome = true ∧
    ((reOracle "^[a-z]\x7b4\x7d$" = false →
        set_pattern reOracle defaultSettings "SERVICE" "^[a-z]\x7b4\x7d$" =
          (Except.error (SErr.invalidPattern "SERVICE"), defaultSettings)) ∧
     (reOracle "^[a-z]\x7b4\x7d$" = true → pyUpper "SERVICE" = "SERVICE" →
        "^[a-z]\x7b4\x7d$" ≠ "" →
        (set_pattern reOracle defaultSettings "SERVICE" "^[a-z]\x7b4\x7d$").1 =
          Except.ok () ∧
        (get_compiled_pattern reOracle
            (set_pattern reOracle defaultSettings "SERVICE" "^[a-z]\x7b4\x7d$").2
            "SERVICE").1 = some "^[a-z]\x7b4\x7d$")) :=
  ⟨by decide,
   C7_set_pattern_invalidation reOracle defaultSettings "SERVICE" "^[a-z]\x7b4\x7d$"
     (by decide)⟩

/-- Claim C8 (confirmed).  For a `Resource` whose protected identity field
currently holds a non-`None` value, assigning through `__setattr__` raises
the immutable-field error exactly when the new value differs from the
current one (re-assigning the same value is a no-op), and in either case
the field still holds its old value afterwards. -/
theorem C8_immutable_field_assignment (st : AttrState) (name : String) (v0 : String)
    (w : Option String) (hname : name ∈ immutableFields)
    (hcur : alistLookup name st = some (some v0)) :
    ((resource_setattr st name w).1 = Except.error (AttrErr.immutableField name) ↔
      w ≠ some v0) ∧
    alistLookup name (resource_setattr st name w).2 = some (some v0) := by
  unfold resource_setattr
  rw [if_neg (by simpa using hname)]
  rw [hcur]
  by_cases hw : w = some v0
  · subst hw
    simp [alistLookup_update_self]
  · simp [hw, hcur]

/-- Witness for C8: the field `id` holding `"A"`, assigned `"B"`. -/
theorem C8_immutable_field_assignment_witness :
    ("id" ∈ immutableFields) ∧
    (alistLookup "id" [("id", some "A")] = some (some "A")) ∧
    (((resource_setattr [("id", some "A")] "id" (some "B")).1 =
        Except.error (AttrErr.immutableField "id") ↔
        (some "B" : Option String) ≠ some "A") ∧
     alistLookup "id" (resource_setattr [("id", some "A")] "id" (some "B")).2 =
       some (some "A")) :=
  ⟨by decide, by decide,
   C8_immutable_field_assignment [("id", some "A")] "id" "A" (some "B")
     (by decide) (by decide)⟩

/-- Claim C9 (confirmed).  Whenever `GlobalRegistry.register` raises, the
name-to-class mapping is left exactly as before the call, so every
subsequent `get`, `get_or_error`, `is_registered` and `list_types` observes
the pre-call bindings. -/
theorem C9_register_error_preserves (C : Type u) [DecidableEq C] (reg : Registry C)
    (name : String) (cls : C) (ov : Bool) (e : RegErr)
    (herr : (register reg name cls ov).1 = Except.error e) :
    (register reg name cls ov).2 = reg ∧
    (∀ m, regGet (register reg name cls ov).2 m = regGet reg m) ∧
    (∀ m, is_registered (register reg name cls ov).2 m = is_registered reg m) ∧
    (∀ m, get_or_error (register reg name cls ov).2 m = get_or_error reg m) ∧
    list_types (register reg name cls ov).2 = list_types reg := by
  have h2 : (register reg name cls ov).2 = reg := by
    by_cases hn : name = ""
    · unfold register; simp [hn]
    · cases hx : alistLookup name reg with
      | none => exfalso; unfold register at herr; simp [hn, hx] at herr
      | some old =>
        by_cases hcond : old ≠ cls ∧ ¬ ov = true
        · unfold register
          simp only [hn, if_false, hx]
          rw [if_pos hcond]
        · exfalso
          unfold register at herr
          simp only [hn, if_false, hx] at herr
          rw [if_neg hcond] at herr
          simp at herr
  exact ⟨h2, fun m => by rw [h2], fun m => by rw [h2], fun m => by rw [h2], by rw [h2]⟩

/-- Witness for C9: a duplicate registration of `"x"` over the registry
`[("x", 0)]`. -/
theorem C9_register_error_preserves_witness :
    ((register [("x", (0 : Nat))] "x" 1 false).1 =
      Except.error (RegErr.duplicate "x")) ∧
    ((register [("x", (0 : Nat))] "x" 1 false).2 = [("x", 0)] ∧
     (∀ m, regGet (register [("x", (0 : Nat))] "x" 1 false).2 m = regGet [("x", 0)] m) ∧
     (∀ m, is_registered (register [("x", (0 : Nat))] "x" 1 false).2 m =
        is_registered [("x", 0)] m) ∧
     (∀ m, get_or_error (register [("x", (0 : Nat))] "x" 1 false).2 m =
        get_or_error [("x", 0)] m) ∧
     list_types (register [("x", (0 : Nat))] "x" 1 false).2 = list_types [("x", 0)]) :=
  ⟨by decide,
   C9_register_error_preserves Nat [("x", 0)] "x" 1 false (RegErr.duplicate "x")
     (by decide)⟩

/-- Claim C10 (confirmed).  `RID.generate` treats empty-string service and
instance arguments exactly like omitted ones (the Python `or` substitutes
the configured defaults for a falsy argument), for every settings object,
oracle and locator input; in particular the concrete call with empty
strings and type `book` succeeds with the default service and instance
rather than raising a pattern-mismatch error. -/
theorem C10_empty_args_use_defaults :
    (∀ (compiles : String → Bool) (st : Settings) (t : String) (locator : Option String)
        (last : Option Nat) (t1 r1 t2 r2 : Nat),
       RID_generate compiles st (some "") (some "") t locator last t1 r1 t2 r2 =
         RID_generate compiles st none none t locator last t1 r1 t2 r2) ∧
    (RID_generate reOracle defaultSettings (some "") (some "") "book" none none 0 0 0 0).1 =
      Except.ok "ri.default.prod.book.00000000000000000000000000" :=
  ⟨fun _ _ _ _ _ _ _ _ _ => rfl, by decide⟩

end Registro
